import Mathlib

/-!
Verification development for the gossip service of the rkcloudchain courier
repository (`gossip/service.go`, schema `protos/rksync.proto`).

The Go source is shallowly embedded: protobuf messages become Lean
structures, the mutable service state becomes an explicit `ServiceState`
record threaded through the operations, and side effects (emitter
additions, channel delivery, discovery forwarding, transport sends) are
returned as explicit effect values.  External collaborators (protobuf
marshalling, SHA-256, PEM encoding, signature verification) are fields of
an `Env` record of abstract functions.  Helper functions that live in the
rksync library packages rather than in the embedded source file are
modelled from the specification and carry a doc comment saying so.
-/

namespace Courier

/-- Byte strings are modelled as lists of naturals. -/
abbrev Bytes := List Nat

/-- Wire envelope: `Envelope{payload, signature}` from rksync.proto. -/
structure Envelope where
  payload : Bytes
  signature : Bytes
  deriving Repr, DecidableEq

/-- Model of `Member{endpoint, pki_id}` from rksync.proto. -/
structure Member where
  endpoint : String
  pkiId : Bytes
  deriving Repr, DecidableEq

/-- Model of `PeerTime{inc_num, seq_num}` from rksync.proto. -/
structure PeerTime where
  incNum : Nat
  seqNum : Nat
  deriving Repr, DecidableEq

/-- Model of `AliveMessage{membership, timestamp, identity}` from rksync.proto. -/
structure AliveMessage where
  membership : Member
  timestamp : PeerTime
  identity : Bytes
  deriving Repr, DecidableEq

/-- Model of `MembershipRequest{self_information, known}` from rksync.proto. -/
structure MembershipRequest where
  selfInformation : Envelope
  known : List Bytes
  deriving Repr, DecidableEq

/-- Model of `MembershipResponse{alive, dead}` from rksync.proto. -/
structure MembershipResponse where
  alive : List Envelope
  dead : List Envelope
  deriving Repr, DecidableEq

/-- Model of `ChainState{seq_num, chain_mac, envelope}` from rksync.proto. -/
structure ChainState where
  seqNum : Nat
  chainMac : Bytes
  envelope : Envelope
  deriving Repr, DecidableEq

/-- Model of `File.Mode` enum from rksync.proto. -/
inductive FileMode
  | append
  | random
  deriving Repr, DecidableEq

/-- Model of `File{path, mode}` from rksync.proto. -/
structure File where
  path : String
  mode : FileMode
  deriving Repr, DecidableEq

/-- Model of `Properties{members, files}` from rksync.proto. -/
structure Properties where
  members : List Bytes
  files : List File
  deriving Repr, DecidableEq

/-- Model of `ChainStateInfo{leader, properties}` from rksync.proto. -/
structure ChainStateInfo where
  leader : Bytes
  properties : Properties
  deriving Repr, DecidableEq

/-- Model of `ConnEstablish{pki_id, identity}` from rksync.proto. -/
structure ConnEstablish where
  pkiId : Bytes
  identity : Bytes
  deriving Repr, DecidableEq

/-- Model of `Acknowledgement{error}` from rksync.proto. -/
structure Acknowledgement where
  err : String
  deriving Repr, DecidableEq

/-- Model of `ChainStatePullRequest{chain_mac}` from rksync.proto. -/
structure ChainStatePullRequest where
  chainMac : Bytes
  deriving Repr, DecidableEq

/-- Model of `ChainStatePullResponse{element}` from rksync.proto. -/
structure ChainStatePullResponse where
  element : Envelope
  deriving Repr, DecidableEq

/-- Model of `RKSyncMessage.Tag` enum from rksync.proto. -/
inductive Tag
  | EMPTY
  | CHAN_ONLY
  deriving Repr, DecidableEq

/-- The `content` oneof of `RKSyncMessage` from rksync.proto. -/
inductive Content
  | aliveMsg (a : AliveMessage)
  | empty
  | conn (c : ConnEstablish)
  | ack (a : Acknowledgement)
  | memReq (r : MembershipRequest)
  | memRes (r : MembershipResponse)
  | state (s : ChainState)
  | statePullRequest (r : ChainStatePullRequest)
  | statePullResponse (r : ChainStatePullResponse)
  | stateInfo (i : ChainStateInfo)
  deriving Repr, DecidableEq

/-- Model of `RKSyncMessage{nonce, channel, tag, content}` from rksync.proto. -/
structure RKSyncMessage where
  nonce : Nat
  channel : Bytes
  tag : Tag
  content : Content
  deriving Repr, DecidableEq

/-- Model of `SignedRKSyncMessage`: an `RKSyncMessage` together with the envelope it
was parsed from (rksync protos extension type). -/
structure SignedRKSyncMessage where
  message : RKSyncMessage
  envelope : Envelope
  deriving Repr, DecidableEq

/-- Model of `GetAliveMsg`: the alive content of the oneof, if any. -/
def RKSyncMessage.GetAliveMsg (m : RKSyncMessage) : Option AliveMessage :=
  match m.content with
  | .aliveMsg a => some a
  | _ => none

/-- Model of `GetMemReq`: the membership-request content of the oneof, if any. -/
def RKSyncMessage.GetMemReq (m : RKSyncMessage) : Option MembershipRequest :=
  match m.content with
  | .memReq r => some r
  | _ => none

/-- Model of `GetMemRes`: the membership-response content of the oneof, if any. -/
def RKSyncMessage.GetMemRes (m : RKSyncMessage) : Option MembershipResponse :=
  match m.content with
  | .memRes r => some r
  | _ => none

/-- Model of `GetState`: the chain-state content of the oneof, if any. -/
def RKSyncMessage.GetState (m : RKSyncMessage) : Option ChainState :=
  match m.content with
  | .state s => some s
  | _ => none

/-- Model of `GetStatePullRequest`: the pull-request content of the oneof, if any. -/
def RKSyncMessage.GetStatePullRequest (m : RKSyncMessage) : Option ChainStatePullRequest :=
  match m.content with
  | .statePullRequest r => some r
  | _ => none

/-- Model of `IsAliveMsg` (rksync protos extension): the content is an alive message. -/
def RKSyncMessage.IsAliveMsg (m : RKSyncMessage) : Bool :=
  m.GetAliveMsg.isSome

/-- Model of `IsChainStateMsg` (rksync protos extension): the content is a chain state. -/
def RKSyncMessage.IsChainStateMsg (m : RKSyncMessage) : Bool :=
  m.GetState.isSome

/-- Modelled from the spec (the rksync protos extension is not under src):
channel-restricted messages are the ones tagged `CHAN_ONLY`. -/
def RKSyncMessage.IsChannelRestricted (m : RKSyncMessage) : Bool :=
  m.tag = Tag.CHAN_ONLY

/-- Modelled from the spec (the rksync protos `IsTagLegal` is not under src):
channel-restricted content variants require `CHAN_ONLY` and a non-empty
channel field; discovery content variants require `EMPTY`. -/
def RKSyncMessage.isTagLegal (m : RKSyncMessage) : Bool :=
  match m.content with
  | .state _ => m.tag = Tag.CHAN_ONLY && m.channel ≠ []
  | .statePullRequest _ => m.tag = Tag.CHAN_ONLY && m.channel ≠ []
  | .statePullResponse _ => m.tag = Tag.CHAN_ONLY && m.channel ≠ []
  | .stateInfo _ => m.tag = Tag.CHAN_ONLY && m.channel ≠ []
  | _ => m.tag = Tag.EMPTY

/-- Abstract external collaborators: protobuf decode/encode of
`RKSyncMessage`, SHA-256, signed-message verification (via the identity
mapper) and PEM encoding of a raw certificate.  All are opaque parameters
of the embedding. -/
structure Env where
  decode : Bytes → Option RKSyncMessage
  encode : RKSyncMessage → Bytes
  hash : Bytes → Bytes
  verify : Bytes → SignedRKSyncMessage → Bool
  pemEncode : Bytes → Option Bytes

/-- Modelled from the spec (rksync protos, not under src):
`Envelope.ToRKSyncMessage` unmarshals the payload and pairs it with the
envelope; it fails when the payload does not parse. -/
def Envelope.ToRKSyncMessage (env : Env) (e : Envelope) : Option SignedRKSyncMessage :=
  (env.decode e.payload).map (fun m => ⟨m, e⟩)

/-- Modelled from the spec (rksync protos, not under src): a ChainState
envelope is a signed wrapper around the serialized `ChainStateInfo`;
`GetChainStateInfo` parses it back out, failing on a malformed payload. -/
def ChainState.GetChainStateInfo (env : Env) (cs : ChainState) : Option ChainStateInfo :=
  match env.decode cs.envelope.payload with
  | some m =>
    match m.content with
    | .stateInfo i => some i
    | _ => none
  | none => none

/-- Modelled from the spec (rksync protos, not under src): `NoopSign`
re-wraps a message into an envelope whose payload is the serialized
message and whose signature is empty. -/
def noopSign (env : Env) (m : RKSyncMessage) : SignedRKSyncMessage :=
  ⟨m, ⟨env.encode m, []⟩⟩

/-- Model of `common.NetworkMember{endpoint, pkiId}`. -/
structure NetworkMember where
  endpoint : String
  pkiId : Bytes
  deriving Repr, DecidableEq

/-- Modelled from the spec (rksync common, not under src):
`PKIidType.IsNotSameFilter` accepts exactly the PKI-ids different from the
given one (the "not sender" routing filter). -/
def isNotSameFilter (id that : Bytes) : Bool :=
  that ≠ id

/-- Bytes of a Go string (model). -/
def strBytes (s : String) : Bytes :=
  s.data.map Char.toNat

/-- Go `string(bytes)` conversion (model). -/
def bytesToStr (b : Bytes) : String :=
  String.mk (b.map Char.ofNat)

/-- Result of the message-store comparator applied to a pair
(new message, existing message). -/
inductive InvalidationResult
  | noAction
  | invalidates
  | invalidated
  deriving Repr, DecidableEq

/-- Lexicographic comparison of byte strings (model of the bytewise payload
comparator used to break seqNum ties). -/
def bytesCompare : Bytes → Bytes → Ordering
  | [], [] => .eq
  | [], _ :: _ => .lt
  | _ :: _, [] => .gt
  | a :: as, b :: bs =>
    if a < b then .lt else if b < a then .gt else bytesCompare as bs

/-- Modelled from the spec (rksync protos `NewRKSyncMessageComparator`, not
under src): the chain-state deduplication comparator keeps only the
highest-seqNum state per chainMac, with ties broken by the bytewise payload
comparator. -/
def rkSyncMessageComparator (a b : SignedRKSyncMessage) : InvalidationResult :=
  match a.message.content, b.message.content with
  | .state sa, .state sb =>
    if sa.chainMac = sb.chainMac then
      if sa.seqNum = sb.seqNum then
        match bytesCompare a.envelope.payload b.envelope.payload with
        | .gt => .invalidates
        | _ => .invalidated
      else if sa.seqNum > sb.seqNum then .invalidates
      else .invalidated
    else .noAction
  | _, _ => .noAction

/-- Modelled from the spec (rksync lib `MessageStore`, not under src):
`Add(m)` returns true iff m was inserted (not superseded by any existing
entry); existing entries that m supersedes are removed. -/
def msgStoreAdd (cmp : SignedRKSyncMessage → SignedRKSyncMessage → InvalidationResult)
    (store : List SignedRKSyncMessage) (m : SignedRKSyncMessage) :
    Bool × List SignedRKSyncMessage :=
  if store.any (fun n => cmp m n = InvalidationResult.invalidated) then
    (false, store)
  else
    (true, m :: store.filter (fun n => cmp m n ≠ InvalidationResult.invalidates))

/-- Modelled from the spec (rksync filter package, not under src):
`SelectPeers(k, members, filter)` returns up to k members matching the
filter (the source picks them at random without replacement; the model
takes the first k matches). -/
def selectPeers (k : Nat) (members : List NetworkMember)
    (pred : NetworkMember → Bool) : List NetworkMember :=
  (members.filter pred).take k

/-- Modelled from the spec (rksync filter package, not under src):
`CombineRoutingFilters` is the conjunction of routing filters. -/
def combineRoutingFilters (f g : NetworkMember → Bool) : NetworkMember → Bool :=
  fun m => f m && g m

/-- Modelled from the spec (rksync filter package, not under src):
`SelectAllPolicy` accepts every member. -/
def selectAllPolicy : NetworkMember → Bool :=
  fun _ => true

/-- The gossip configuration fields the embedded operations read. -/
structure GossipConfig where
  propagateIterations : Nat
  propagatePeerNum : Nat
  endpoint : String
  deriving Repr, DecidableEq

/-- A registered channel in the channel-state registry.  The per-channel
component (rksync channel package, not under src) owns chainMac and the
member list; they are adopted from validated chain states. -/
structure ChannelEntry where
  chainID : String
  chainMac : Bytes
  leader : Bool
  members : List Bytes
  deriving Repr, DecidableEq

/-- The mutable state of the gossip service that the embedded operations
read and write: self PKI-id, the atomic stop flags, the channel registry,
the chain-state dedup store, the discovery membership view and the
configuration. -/
structure ServiceState where
  selfPKIid : Bytes
  stopFlag : Bool
  adapterStopping : Bool
  channels : List ChannelEntry
  chainStateStore : List SignedRKSyncMessage
  discMembership : List NetworkMember
  conf : GossipConfig

/-- A `protos.ReceivedMessage`: the signed message together with the
connection-handshake PKI-id (`GetConnectionInfo().ID`). -/
structure ReceivedMessage where
  msg : SignedRKSyncMessage
  connID : Bytes

/-- An `emittedRKSyncMessage`: a signed message with its routing filter. -/
structure EmittedMessage where
  msg : SignedRKSyncMessage
  filter : Bytes → Bool

/-- One transport send performed by `gossipBatch`: the emitted message and
the peers it is sent to. -/
structure SendAction where
  emitted : EmittedMessage
  peers : List NetworkMember

/-- The observable effects of one `handleMessage` call. -/
structure HandleEffects where
  emitted : List EmittedMessage
  deliveredTo : Option String
  joinedFollower : Option String
  forwardedToDiscovery : Bool

/-- No effects. -/
def noEffects : HandleEffects :=
  ⟨[], none, none, false⟩

/-- Model of `channelState.getChannelByChainID`: registry lookup by chain id. -/
def getChannelByChainID (st : ServiceState) (cid : String) : Option ChannelEntry :=
  st.channels.find? (fun c => c.chainID = cid)

/-- Modelled from the spec (rksync protos, not under src): the chainMac a
message carries, used by `lookupChannelForMsg` to resolve its channel. -/
def RKSyncMessage.chainMacOf (m : RKSyncMessage) : Option Bytes :=
  match m.content with
  | .state s => some s.chainMac
  | .statePullRequest r => some r.chainMac
  | _ => none

/-- Modelled from the spec (rksync channel package, not under src):
`lookupChannelForMsg` resolves a channel by the chainMac carried in the
message. -/
def lookupChannelForMsg (st : ServiceState) (m : ReceivedMessage) : Option ChannelEntry :=
  match m.msg.message.chainMacOf with
  | some mac => st.channels.find? (fun c => c.chainMac = mac)
  | none => none

/-- Modelled from the spec (rksync channel package, not under src):
`joinChannel(chainID, asLeader)` creates the per-channel state if absent
and is idempotent; chainMac and members are populated later by the channel
component from validated chain states. -/
def joinChannel (st : ServiceState) (cid : String) (asLeader : Bool) : ServiceState :=
  if (st.channels.any (fun c => c.chainID = cid)) then st
  else { st with channels := ⟨cid, [], asLeader, []⟩ :: st.channels }

/-- The adoption step of `InitializeWithChainState` (rksync channel
package, not under src): writes a chain state that already passed the
signature and membership checks into the channel entry (chainMac and
declared members). -/
def adoptChainState (st : ServiceState) (cid : String) (cs : ChainState)
    (info : ChainStateInfo) : ServiceState :=
  { st with
    channels := st.channels.map (fun c =>
      if c.chainID = cid then
        { c with chainMac := cs.chainMac, members := info.properties.members }
      else c) }

/-- Model of `validateMsg` (service.go:461-469): checks only that the message tag
is legal.  Despite its source doc comment, it performs no signature
verification. -/
def validateMsg (m : ReceivedMessage) : Bool :=
  m.msg.message.isTagLegal

/-- Model of `selectOnlyDiscoveryMessages` (service.go:512-523): the content is an
alive message, a membership response or a membership request. -/
def selectOnlyDiscoveryMessages (m : ReceivedMessage) : Bool :=
  m.msg.message.GetAliveMsg.isSome || m.msg.message.GetMemRes.isSome ||
    m.msg.message.GetMemReq.isSome

/-- Model of `isInChannel` (service.go:420-435): parses the chain-state info of the
message and checks whether the local PKI-id appears in the declared member
list; a parse failure yields false. -/
def isInChannel (env : Env) (st : ServiceState) (m : ReceivedMessage) : Bool :=
  match m.msg.message.GetState with
  | none => false
  | some cs =>
    match cs.GetChainStateInfo env with
    | none => false
    | some info => info.properties.members.any (fun mem => mem = st.selfPKIid)

/-- Model of `forwardDiscoveryMsg` (service.go:437-445): forwards to the discovery
adapter inbound channel unless the adapter is stopping. -/
def forwardDiscoveryMsg (st : ServiceState) : ServiceState × HandleEffects :=
  (st, { noEffects with forwardedToDiscovery := !st.adapterStopping })

/-- The chain-state branch of `handleMessage` (service.go:372-390): emit
with the not-sender filter, `Add` to the dedup store, and when newly
added resolve the channel (joining as follower when the local peer is in
the declared member list) and deliver. -/
def handleChainStateMsg (env : Env) (st : ServiceState) (m : ReceivedMessage) :
    ServiceState × HandleEffects :=
  let em : EmittedMessage := ⟨m.msg, isNotSameFilter m.connID⟩
  let addRes := msgStoreAdd rkSyncMessageComparator st.chainStateStore m.msg
  let st2 : ServiceState := { st with chainStateStore := addRes.2 }
  if addRes.1 then
    match lookupChannelForMsg st2 m with
    | some gc => (st2, ⟨[em], some gc.chainID, none, false⟩)
    | none =>
      if isInChannel env st2 m then
        let cid := bytesToStr m.msg.message.channel
        (joinChannel st2 cid false, ⟨[em], some cid, some cid, false⟩)
      else (st2, ⟨[em], none, none, false⟩)
  else (st2, ⟨[em], none, none, false⟩)

/-- Model of `handleMessage` (service.go:353-418): the top-level inbound decision
tree.  Returns the new service state and the observable effects. -/
def handleMessage (env : Env) (st : ServiceState) (m : ReceivedMessage) :
    ServiceState × HandleEffects :=
  if st.stopFlag then (st, noEffects)
  else if !(validateMsg m) then (st, noEffects)
  else if m.msg.message.IsChainStateMsg then
    handleChainStateMsg env st m
  else if m.msg.message.IsChannelRestricted then
    match lookupChannelForMsg st m with
    | some gc => (st, ⟨[], some gc.chainID, none, false⟩)
    | none => (st, noEffects)
  else if selectOnlyDiscoveryMessages m then
    match m.msg.message.GetMemReq with
    | some mr =>
      match mr.selfInformation.ToRKSyncMessage env with
      | none => (st, noEffects)
      | some sMsg =>
        match sMsg.message.GetAliveMsg with
        | none => (st, noEffects)
        | some am =>
          if am.membership.pkiId = m.connID then forwardDiscoveryMsg st
          else (st, noEffects)
    | none => forwardDiscoveryMsg st
  else (st, noEffects)

/-- Model of `partitionMessages` (service.go:742-753): splits the slice into the
messages satisfying the predicate and the rest. -/
def partitionMessages (pred : EmittedMessage → Bool) (a : List EmittedMessage) :
    List EmittedMessage × List EmittedMessage :=
  a.partition pred

/-- Modelled from the spec (rksync channel package, not under src):
`IsMemberInChan` accepts exactly the members of the channel. -/
def isMemberInChan (gc : ChannelEntry) (member : NetworkMember) : Bool :=
  gc.members.any (fun mem => mem = member.pkiId)

/-- The routing filter `gossipBatch` builds for a chain-state message
(service.go:290-296): the emitted filter, further restricted to channel
members when the channel of the message is known. -/
def chainStateSelector (st : ServiceState) (e : EmittedMessage) :
    NetworkMember → Bool :=
  match getChannelByChainID st (bytesToStr e.msg.message.channel) with
  | some gc =>
    combineRoutingFilters (fun member => e.filter member.pkiId)
      (fun member => isMemberInChan gc member)
  | none => fun member => e.filter member.pkiId

/-- The routing filter `gossipBatch` builds for an alive message
(service.go:308-310). -/
def aliveSelector (e : EmittedMessage) : NetworkMember → Bool :=
  combineRoutingFilters selectAllPolicy (fun member => e.filter member.pkiId)

/-- Model of `gossipBatch` (service.go:276-314): partitions the batch into
chain-state messages and the rest; chain-state messages go to peers
matching the emitted filter, further restricted to channel members when
the channel is known; other messages must be alive messages and go to
peers matching the emitted filter. -/
def gossipBatch (st : ServiceState) (msgs : List EmittedMessage) : List SendAction :=
  let part := partitionMessages (fun e => e.msg.message.IsChainStateMsg) msgs
  let chainStateSends := part.1.map (fun e =>
    SendAction.mk e (selectPeers st.conf.propagatePeerNum st.discMembership
      (chainStateSelector st e)))
  let otherSends := (part.2.filter (fun e => e.msg.message.IsAliveMsg)).map (fun e =>
    SendAction.mk e (selectPeers st.conf.propagatePeerNum st.discMembership
      (aliveSelector e)))
  chainStateSends ++ otherSends

/-- The error kinds surfaced by the embedded API calls. -/
inductive GError
  | invalidInput
  | stopped
  | parseFailure
  | signatureInvalid
  | leaderMismatch
  | notMember
  | encodingFailed
  deriving Repr, DecidableEq

/-- Modelled from the spec (rksync channel package `GenerateMAC`, not under
src): `chainMac = SHA256(pkiId concat chainID)`. -/
def generateMAC (env : Env) (pkiId : Bytes) (chainID : String) : Bytes :=
  env.hash (pkiId ++ strBytes chainID)

/-- Modelled from the spec (rksync channel package, not under src):
`InitializeWithChainState` verifies the state signature, verifies that
the local peer is among the declared members, and only then adopts the
state.  It is fallible, and by the time it runs the caller has already
joined the channel, so its errors leave the joined entry in the registry. -/
def InitializeWithChainState (env : Env) (st : ServiceState) (cid : String)
    (cs : ChainState) : ServiceState × Option GError :=
  match cs.envelope.ToRKSyncMessage env with
  | none => (st, some GError.parseFailure)
  | some sm =>
    match cs.GetChainStateInfo env with
    | none => (st, some GError.parseFailure)
    | some info =>
      if !(env.verify info.leader sm) then (st, some GError.signatureInvalid)
      else if info.properties.members.any (fun mem => mem = st.selfPKIid) then
        (adoptChainState st cid cs info, none)
      else (st, some GError.notMember)

/-- Model of `InitializeChannel` (service.go:155-190): validates the chain id, the
stop flag, the chainMac, the state signature and the leader; only after
all of those does it join the channel and hand the state to the fallible
`InitializeWithChainState` (service.go:188-189).  Returns the resulting
state and an error when any step fails. -/
def InitializeChannel (env : Env) (st : ServiceState) (chainID : String)
    (cs : ChainState) : ServiceState × Option GError :=
  if chainID = "" then (st, some GError.invalidInput)
  else if st.stopFlag then (st, some GError.stopped)
  else if cs.chainMac ≠ generateMAC env st.selfPKIid chainID then
    (st, some GError.invalidInput)
  else
    match cs.envelope.ToRKSyncMessage env with
    | none => (st, some GError.parseFailure)
    | some signedMsg =>
      if !(env.verify st.selfPKIid signedMsg) then (st, some GError.signatureInvalid)
      else
        match cs.GetChainStateInfo env with
        | none => (st, some GError.parseFailure)
        | some info =>
          if info.leader ≠ st.selfPKIid then (st, some GError.leaderMismatch)
          else InitializeWithChainState env (joinChannel st chainID true) chainID cs

/-- Model of `GetPKIidOfCert` (service.go:210-221): the SHA-256 digest of the node
id bytes concatenated with the PEM encoding of the certificate; an error
exactly when PEM encoding fails. -/
def GetPKIidOfCert (env : Env) (nodeID : String) (certRaw : Bytes) :
    Except GError Bytes :=
  match env.pemEncode certRaw with
  | none => Except.error GError.encodingFailed
  | some pemBytes => Except.ok (env.hash (strBytes nodeID ++ pemBytes))

/-- The sieve half of `disclosurePolicy` (service.go:553-565): `none`
models the fatal log on a non-alive message; otherwise gossip iff both the
message own endpoint and the remote peer endpoint are non-empty. -/
def disclosureSieve (remotePeer : NetworkMember) (msg : SignedRKSyncMessage) :
    Option Bool :=
  match msg.message.GetAliveMsg with
  | none => none
  | some am => some (am.membership.endpoint ≠ "" && remotePeer.endpoint ≠ "")

/-- The envelope-filter half of `disclosurePolicy` (service.go:561-564):
returns a clone of the message envelope, unmodified. -/
def omitConcealedFields (msg : SignedRKSyncMessage) : Envelope :=
  msg.envelope

/-- Model of `Peers` (service.go:114-119): empty once the service is stopping,
otherwise the discovery membership. -/
def Peers (st : ServiceState) : List NetworkMember :=
  if st.stopFlag then [] else st.discMembership

/-- Model of `toDie` (service.go:498-500). -/
def toDie (st : ServiceState) : Bool :=
  st.stopFlag

/-- Model of `Stop` (service.go:243-259): returns immediately when the stop flag is
already set; otherwise sets it, closes the discovery adapter and runs the
shutdown sequence.  The boolean records whether the shutdown sequence ran. -/
def Stop (st : ServiceState) : ServiceState × Bool :=
  if toDie st then (st, false)
  else ({ st with stopFlag := true, adapterStopping := true }, true)

/-- The `gossipFunc` closure of `newDiscoveryAdapter` (service.go:529-537):
the emitter additions it performs. -/
def gossipFunc (conf : GossipConfig) (msg : SignedRKSyncMessage) :
    List EmittedMessage :=
  if conf.propagateIterations = 0 then []
  else [⟨msg, fun _ => true⟩]

/-- The `forwardFunc` closure of `newDiscoveryAdapter` (service.go:538-546):
the emitter additions it performs. -/
def forwardFunc (conf : GossipConfig) (m : ReceivedMessage) :
    List EmittedMessage :=
  if conf.propagateIterations = 0 then []
  else [⟨m.msg, isNotSameFilter m.connID⟩]

/-- Model of `discoveryAdapter.Gossip` (service.go:591-599): no-op when stopping,
otherwise runs `gossipFunc`. -/
def adapterGossip (conf : GossipConfig) (stopping : Bool)
    (msg : SignedRKSyncMessage) : List EmittedMessage :=
  if stopping then [] else gossipFunc conf msg

/-- Model of `discoveryAdapter.Forward` (service.go:601-609): no-op when stopping,
otherwise runs `forwardFunc`. -/
def adapterForward (conf : GossipConfig) (stopping : Bool)
    (m : ReceivedMessage) : List EmittedMessage :=
  if stopping then [] else forwardFunc conf m

/-- Outcome of `discoveryAdapter.SendToPeer`. -/
inductive SendResult
  | sent (m : SignedRKSyncMessage)
  | dropped
  | fatalMalformed

/-- Model of `discoveryAdapter.SendToPeer` (service.go:611-647): for a membership
request to a peer with a known PKI-id, the self-information envelope is
replaced by the disclosure policy `omitConcealedFields` output, the
rest of the request and message fields are cloned, and the result is
noop-signed; a malformed self-information panics; other messages are sent
unchanged. -/
def SendToPeer (env : Env) (stopping : Bool) (peer : NetworkMember)
    (msg : SignedRKSyncMessage) : SendResult :=
  if stopping then SendResult.dropped
  else
    match msg.message.GetMemReq with
    | some mr =>
      if peer.pkiId ≠ [] then
        match mr.selfInformation.ToRKSyncMessage env with
        | none => SendResult.fatalMalformed
        | some selfMsg =>
          let newSelfInfo := omitConcealedFields selfMsg
          let mr2 : MembershipRequest := ⟨newSelfInfo, mr.known⟩
          let msgCopy : RKSyncMessage := { msg.message with content := Content.memReq mr2 }
          SendResult.sent (noopSign env msgCopy)
      else SendResult.sent msg
    | none => SendResult.sent msg

/-! Concrete fixtures used by witnesses and evidence theorems. -/

/-- A concrete environment: decoding always fails, hashing is the identity,
verification always fails, PEM encoding is the identity. -/
def env0 : Env :=
  ⟨fun _ => none, fun _ => [], id, fun _ _ => false, fun b => some b⟩

/-- A concrete configuration with two propagate iterations. -/
def conf0 : GossipConfig :=
  ⟨2, 1, "self"⟩

/-- A concrete configuration with zero propagate iterations. -/
def confZero : GossipConfig :=
  ⟨0, 1, "self"⟩

/-- A concrete running service state with self PKI-id `[9]`. -/
def st0 : ServiceState :=
  ⟨[9], false, false, [], [], [], conf0⟩

/-- A concrete alive-message content. -/
def aliveContent0 : AliveMessage :=
  ⟨⟨"endpoint0", [9]⟩, ⟨1, 1⟩, []⟩

/-- A concrete alive message whose envelope carries no signature. -/
def unsignedAliveMsg : SignedRKSyncMessage :=
  ⟨⟨1, [], Tag.EMPTY, Content.aliveMsg aliveContent0⟩, ⟨[1, 2], []⟩⟩

/-- The unsigned alive message as received over a connection whose
handshake PKI-id is `[9]`. -/
def rcvAlive : ReceivedMessage :=
  ⟨unsignedAliveMsg, [9]⟩

/-! Claim theorems. -/

/-- Claim C1 (evidence of the code bug): the spec demands that every
message the gossip service accepts either had its signature verified or is
a pure discovery membership request, and that `validateMsg` establishes
signature validity.  In the source, `validateMsg` checks only tag
legality: the concrete unsigned alive message (empty signature, a
verifier that rejects everything) passes `validateMsg` and is forwarded
to the discovery adapter even though it is not a membership request and
its signature was never verified. -/
theorem validateMsg_no_signature_check :
    validateMsg rcvAlive = true
    ∧ rcvAlive.msg.envelope.signature = []
    ∧ env0.verify rcvAlive.connID rcvAlive.msg = false
    ∧ (handleMessage env0 st0 rcvAlive).2.forwardedToDiscovery = true
    ∧ rcvAlive.msg.message.GetMemReq = none
    ∧ (∀ m : ReceivedMessage, validateMsg m = m.msg.message.isTagLegal) :=
  ⟨rfl, rfl, rfl, by decide, rfl, fun _ => rfl⟩

/-- Claim C6: for an alive message, the default disclosure policy sieve
returns true iff both the endpoint in the message membership and the
remote peer endpoint are non-empty; the envelope filter returns the
message envelope unchanged; and the sieve on a non-alive message hits
the fatal branch (modelled as `none`). -/
theorem disclosurePolicy_default (remote : NetworkMember)
    (msg : SignedRKSyncMessage) (am : AliveMessage)
    (h : msg.message.GetAliveMsg = some am) :
    disclosureSieve remote msg =
      some (am.membership.endpoint ≠ "" && remote.endpoint ≠ "")
    ∧ omitConcealedFields msg = msg.envelope
    ∧ (∀ m2 : SignedRKSyncMessage, m2.message.IsAliveMsg = false →
        disclosureSieve remote m2 = none) := by
  refine ⟨?_, rfl, ?_⟩
  · unfold disclosureSieve
    rw [h]
  · intro m2 h2
    unfold disclosureSieve
    unfold RKSyncMessage.IsAliveMsg at h2
    rcases h3 : m2.message.GetAliveMsg with _ | a
    · rfl
    · rw [h3] at h2
      simp at h2

/-- Witness for C6 at the concrete unsigned alive message. -/
theorem disclosurePolicy_default_witness :
    unsignedAliveMsg.message.GetAliveMsg = some aliveContent0
    ∧ (disclosureSieve ⟨"r", [1]⟩ unsignedAliveMsg =
        some (aliveContent0.membership.endpoint ≠ "" && (⟨"r", [1]⟩ : NetworkMember).endpoint ≠ "")
      ∧ omitConcealedFields unsignedAliveMsg = unsignedAliveMsg.envelope
      ∧ (∀ m2 : SignedRKSyncMessage, m2.message.IsAliveMsg = false →
          disclosureSieve ⟨"r", [1]⟩ m2 = none)) :=
  ⟨rfl, disclosurePolicy_default ⟨"r", [1]⟩ unsignedAliveMsg aliveContent0 rfl⟩

/-- Claim C7: `GetPKIidOfCert` returns the SHA-256 digest of the node id
bytes concatenated with the PEM encoding of the certificate, and returns
an error exactly when PEM encoding fails. -/
theorem getPKIidOfCert_spec (env : Env) (nodeID : String) (certRaw : Bytes) :
    (∀ pb, env.pemEncode certRaw = some pb →
      GetPKIidOfCert env nodeID certRaw = Except.ok (env.hash (strBytes nodeID ++ pb)))
    ∧ (env.pemEncode certRaw = none →
      GetPKIidOfCert env nodeID certRaw = Except.error GError.encodingFailed)
    ∧ (∀ e, GetPKIidOfCert env nodeID certRaw = Except.error e →
      env.pemEncode certRaw = none ∧ e = GError.encodingFailed) := by
  rcases h : env.pemEncode certRaw with _ | pb
  · refine ⟨?_, ?_, ?_⟩
    · intro pb2 h2
      cases h2
    · intro _
      unfold GetPKIidOfCert
      rw [h]
    · intro e he
      unfold GetPKIidOfCert at he
      rw [h] at he
      cases he
      exact ⟨rfl, rfl⟩
  · refine ⟨?_, ?_, ?_⟩
    · intro pb2 h2
      cases h2
      unfold GetPKIidOfCert
      rw [h]
    · intro h2
      cases h2
    · intro e he
      unfold GetPKIidOfCert at he
      rw [h] at he
      cases he

/-- Witness for C7 at a concrete environment where PEM encoding is the
identity. -/
theorem getPKIidOfCert_spec_witness :
    (∀ pb, env0.pemEncode [1, 2] = some pb →
      GetPKIidOfCert env0 "n" [1, 2] = Except.ok (env0.hash (strBytes "n" ++ pb)))
    ∧ (env0.pemEncode [1, 2] = none →
      GetPKIidOfCert env0 "n" [1, 2] = Except.error GError.encodingFailed)
    ∧ (∀ e, GetPKIidOfCert env0 "n" [1, 2] = Except.error e →
      env0.pemEncode [1, 2] = none ∧ e = GError.encodingFailed) :=
  getPKIidOfCert_spec env0 "n" [1, 2]

/-- Claim C9: once `Stop` has run, `Peers` returns the empty list, and a
second `Stop` returns immediately (state unchanged, shutdown sequence not
re-run). -/
theorem stop_idempotent_peers_empty (st : ServiceState) :
    Peers (Stop st).1 = []
    ∧ (Stop (Stop st).1).1 = (Stop st).1
    ∧ (Stop (Stop st).1).2 = false := by
  cases h : st.stopFlag
  · simp [Stop, Peers, toDie, h]
  · simp [Stop, Peers, toDie, h]

/-- Claim C10: with `PropagateIterations = 0`, the discovery adapter
`Gossip` and `Forward` add nothing to the batching emitter, for either
value of the adapter stopping flag. -/
theorem propagateIterations_zero_suppresses (conf : GossipConfig)
    (stopping : Bool) (msg : SignedRKSyncMessage) (m : ReceivedMessage)
    (h : conf.propagateIterations = 0) :
    adapterGossip conf stopping msg = []
    ∧ adapterForward conf stopping m = []
    ∧ gossipFunc conf msg = []
    ∧ forwardFunc conf m = [] := by
  cases stopping <;>
    simp [adapterGossip, adapterForward, gossipFunc, forwardFunc, h]

/-- Witness for C10 at the zero-iterations configuration. -/
theorem propagateIterations_zero_suppresses_witness :
    confZero.propagateIterations = 0
    ∧ (adapterGossip confZero false unsignedAliveMsg = []
      ∧ adapterForward confZero false rcvAlive = []
      ∧ gossipFunc confZero unsignedAliveMsg = []
      ∧ forwardFunc confZero rcvAlive = []) :=
  ⟨rfl, propagateIterations_zero_suppresses confZero false unsignedAliveMsg rcvAlive rfl⟩

/-- Claim C3: a chainMac that differs from `SHA256(selfPKIid concat
chainID)` makes `InitializeChannel` return an invalid-input error with the
whole state (in particular the channel registry) unchanged; the same
atomicity holds for an empty chainID, for a stopping service, for a
failure of the signature verification performed by `InitializeChannel`
itself (service.go:173-178), and when the state leader is not the local
PKI-id — each of these checks precedes the `joinChannel` call, so each
returns its error with the registry untouched. -/
theorem initializeChannel_rejects_atomically (env : Env) (st : ServiceState)
    (chainID : String) (cs : ChainState)
    (h1 : chainID ≠ "") (h2 : st.stopFlag = false)
    (h3 : cs.chainMac ≠ generateMAC env st.selfPKIid chainID) :
    InitializeChannel env st chainID cs = (st, some GError.invalidInput)
    ∧ (∀ (env2 : Env) (st2 : ServiceState) (cs2 : ChainState),
        InitializeChannel env2 st2 "" cs2 = (st2, some GError.invalidInput))
    ∧ (∀ (env2 : Env) (st2 : ServiceState) (cid2 : String) (cs2 : ChainState),
        st2.stopFlag = true → cid2 ≠ "" →
        InitializeChannel env2 st2 cid2 cs2 = (st2, some GError.stopped))
    ∧ (∀ (env2 : Env) (st2 : ServiceState) (cid2 : String) (cs2 : ChainState)
        (sm : SignedRKSyncMessage),
        cid2 ≠ "" → st2.stopFlag = false →
        cs2.chainMac = generateMAC env2 st2.selfPKIid cid2 →
        cs2.envelope.ToRKSyncMessage env2 = some sm →
        env2.verify st2.selfPKIid sm = false →
        InitializeChannel env2 st2 cid2 cs2 = (st2, some GError.signatureInvalid))
    ∧ (∀ (env2 : Env) (st2 : ServiceState) (cid2 : String) (cs2 : ChainState)
        (sm : SignedRKSyncMessage) (info : ChainStateInfo),
        cid2 ≠ "" → st2.stopFlag = false →
        cs2.chainMac = generateMAC env2 st2.selfPKIid cid2 →
        cs2.envelope.ToRKSyncMessage env2 = some sm →
        env2.verify st2.selfPKIid sm = true →
        cs2.GetChainStateInfo env2 = some info →
        info.leader ≠ st2.selfPKIid →
        InitializeChannel env2 st2 cid2 cs2 = (st2, some GError.leaderMismatch)) := by
  refine ⟨?_, ?_, ?_, ?_, ?_⟩
  · unfold InitializeChannel
    simp [h1, h2, h3]
  · intro env2 st2 cs2
    unfold InitializeChannel
    simp
  · intro env2 st2 cid2 cs2 hs hc
    unfold InitializeChannel
    simp [hs, hc]
  · intro env2 st2 cid2 cs2 sm hc hs hmac hdec hv
    unfold InitializeChannel
    simp [hc, hs, hmac, hdec, hv]
  · intro env2 st2 cid2 cs2 sm info hc hs hmac hdec hv hinfo hleader
    unfold InitializeChannel
    simp [hc, hs, hmac, hdec, hv, hinfo, hleader]

/-- A concrete chain state whose chainMac `[0]` differs from
`generateMAC env0 [9] "c"`. -/
def csBadMac : ChainState :=
  ⟨1, [0], ⟨[], []⟩⟩

/-- Witness for C3 at the concrete running state `st0`, chain id `"c"` and
the bad-MAC chain state. -/
theorem initializeChannel_rejects_atomically_witness :
    ("c" ≠ "" ∧ st0.stopFlag = false
      ∧ csBadMac.chainMac ≠ generateMAC env0 st0.selfPKIid "c")
    ∧ InitializeChannel env0 st0 "c" csBadMac = (st0, some GError.invalidInput) :=
  ⟨⟨by decide, rfl, by decide⟩,
    (initializeChannel_rejects_atomically env0 st0 "c" csBadMac
      (by decide) rfl (by decide)).1⟩

/-- A selected peer is a member of the selected-from list and satisfies the
routing filter. -/
theorem mem_selectPeers {k : Nat} {members : List NetworkMember}
    {pred : NetworkMember → Bool} {p : NetworkMember}
    (h : p ∈ selectPeers k members pred) : p ∈ members ∧ pred p = true := by
  unfold selectPeers at h
  have h2 := List.mem_of_mem_take h
  exact ⟨List.mem_of_mem_filter h2, List.of_mem_filter h2⟩

/-- A peer passing the chain-state selector satisfies the emitted filter
and, when the channel is known, is one of its members. -/
theorem chainStateSelector_spec {st : ServiceState} {e : EmittedMessage}
    {p : NetworkMember} (h : chainStateSelector st e p = true) :
    e.filter p.pkiId = true
    ∧ ∀ gc, getChannelByChainID st (bytesToStr e.msg.message.channel) = some gc →
        isMemberInChan gc p = true := by
  unfold chainStateSelector at h
  rcases hgc : getChannelByChainID st (bytesToStr e.msg.message.channel) with _ | gc
  · rw [hgc] at h
    exact ⟨h, fun gc2 h2 => by cases h2⟩
  · rw [hgc] at h
    unfold combineRoutingFilters at h
    simp only [Bool.and_eq_true] at h
    refine ⟨h.1, fun gc2 h2 => ?_⟩
    cases h2
    exact h.2

/-- Claim C2: every peer `gossipBatch` sends an emitted message to is in
the current discovery membership and satisfies the message routing
filter; for a chain-state message whose channel is known, the peer is
additionally one of the channel members. -/
theorem gossipBatch_recipients_subset (st : ServiceState)
    (msgs : List EmittedMessage) (act : SendAction) (p : NetworkMember)
    (h1 : act ∈ gossipBatch st msgs) (h2 : p ∈ act.peers) :
    p ∈ st.discMembership
    ∧ act.emitted.filter p.pkiId = true
    ∧ (∀ gc, act.emitted.msg.message.IsChainStateMsg = true →
        getChannelByChainID st (bytesToStr act.emitted.msg.message.channel) = some gc →
        isMemberInChan gc p = true) := by
  unfold gossipBatch at h1
  simp only [List.mem_append, List.mem_map] at h1
  rcases h1 with ⟨e, he, heq⟩ | ⟨e, he, heq⟩
  · subst heq
    simp only at h2 ⊢
    have hsel := mem_selectPeers h2
    have hspec := chainStateSelector_spec hsel.2
    exact ⟨hsel.1, hspec.1, fun gc _ hgc => hspec.2 gc hgc⟩
  · subst heq
    simp only at h2 ⊢
    have hsel := mem_selectPeers h2
    have halive := List.of_mem_filter he
    have hnotcs : e.msg.message.IsChainStateMsg = false := by
      have hmem := List.mem_of_mem_filter he
      unfold partitionMessages at hmem
      rw [List.partition_eq_filter_filter] at hmem
      simpa using List.of_mem_filter hmem
    unfold aliveSelector combineRoutingFilters selectAllPolicy at hsel
    simp only [Bool.true_and] at hsel
    refine ⟨hsel.1, hsel.2, fun gc hcs _ => ?_⟩
    rw [hnotcs] at hcs
    cases hcs

/-- A concrete membership peer. -/
def p0 : NetworkMember :=
  ⟨"peer0", [5]⟩

/-- A concrete running state whose discovery membership is `[p0]`. -/
def stW : ServiceState :=
  ⟨[9], false, false, [], [], [p0], conf0⟩

/-- The unsigned alive message emitted with an all-pass filter. -/
def eAlive : EmittedMessage :=
  ⟨unsignedAliveMsg, fun _ => true⟩

/-- The send action `gossipBatch stW [eAlive]` performs. -/
def actW : SendAction :=
  ⟨eAlive, [p0]⟩

/-- Witness for C2 at a concrete one-message batch sent to one peer. -/
theorem gossipBatch_recipients_subset_witness :
    p0 ∈ stW.discMembership
    ∧ actW.emitted.filter p0.pkiId = true
    ∧ (∀ gc, actW.emitted.msg.message.IsChainStateMsg = true →
        getChannelByChainID stW (bytesToStr actW.emitted.msg.message.channel) = some gc →
        isMemberInChan gc p0 = true) :=
  gossipBatch_recipients_subset stW [eAlive] actW p0
    (List.mem_singleton.mpr rfl) (List.mem_singleton.mpr rfl)

/-- Updating the chain-state store leaves channel lookup unchanged. -/
theorem lookupChannelForMsg_store_update (st : ServiceState)
    (x : List SignedRKSyncMessage) (m : ReceivedMessage) :
    lookupChannelForMsg { st with chainStateStore := x } m =
      lookupChannelForMsg st m :=
  rfl

/-- Updating the chain-state store leaves `isInChannel` unchanged. -/
theorem isInChannel_store_update (env : Env) (st : ServiceState)
    (x : List SignedRKSyncMessage) (m : ReceivedMessage) :
    isInChannel env { st with chainStateStore := x } m = isInChannel env st m :=
  rfl

/-- A true `isInChannel` yields a parsed chain-state info whose declared
member list contains the local PKI-id. -/
theorem isInChannel_spec {env : Env} {st : ServiceState} {m : ReceivedMessage}
    (h : isInChannel env st m = true) :
    ∃ cs info, m.msg.message.GetState = some cs
      ∧ cs.GetChainStateInfo env = some info
      ∧ st.selfPKIid ∈ info.properties.members := by
  unfold isInChannel at h
  split at h
  · cases h
  · rename_i cs hs
    split at h
    · cases h
    · rename_i info hi
      rcases List.any_eq_true.mp h with ⟨x, hx, hxeq⟩
      have hx2 := of_decide_eq_true hxeq
      subst hx2
      exact ⟨cs, info, hs, hi, hx⟩

/-- Claim C4: for a valid inbound chain-state message, `handleMessage`
adds the message to the emitter with the not-sender filter and calls the
dedup store `Add`; the message is delivered to a channel only when `Add`
returned true, and a previously unknown channel is joined (as follower)
only when `Add` returned true, no channel resolves the message chainMac,
and the local PKI-id appears in the message declared member list. -/
theorem handleMessage_chainState_flow (env : Env) (st : ServiceState)
    (m : ReceivedMessage)
    (h1 : st.stopFlag = false) (h2 : validateMsg m = true)
    (h3 : m.msg.message.IsChainStateMsg = true) :
    (handleMessage env st m).2.emitted = [⟨m.msg, isNotSameFilter m.connID⟩]
    ∧ ((handleMessage env st m).2.deliveredTo.isSome = true →
        (msgStoreAdd rkSyncMessageComparator st.chainStateStore m.msg).1 = true)
    ∧ (∀ cid, (handleMessage env st m).2.joinedFollower = some cid →
        (msgStoreAdd rkSyncMessageComparator st.chainStateStore m.msg).1 = true
        ∧ lookupChannelForMsg st m = none
        ∧ ∃ cs info, m.msg.message.GetState = some cs
            ∧ cs.GetChainStateInfo env = some info
            ∧ st.selfPKIid ∈ info.properties.members) := by
  have heq : handleMessage env st m = handleChainStateMsg env st m := by
    unfold handleMessage
    simp only [h1, h2, h3]
    simp
  rw [heq]
  simp only [handleChainStateMsg, lookupChannelForMsg_store_update,
    isInChannel_store_update]
  cases hadd : (msgStoreAdd rkSyncMessageComparator st.chainStateStore m.msg).1
  · simp
  · cases hlook : lookupChannelForMsg st m
    · cases hin : isInChannel env st m
      · simp [hin]
      · have hspec := isInChannel_spec hin
        simp only [hin, if_true]
        refine ⟨by simp, by simp, fun cid hcid => ⟨trivial, trivial, hspec⟩⟩
    · simp

/-- A concrete chain state carried by a concrete chain-state message. -/
def csW : ChainState :=
  ⟨1, [5], ⟨[], []⟩⟩

/-- A concrete chain-state message with a legal tag. -/
def stateMsgW : SignedRKSyncMessage :=
  ⟨⟨4, [99], Tag.CHAN_ONLY, Content.state csW⟩, ⟨[3], []⟩⟩

/-- The chain-state message as received from connection PKI-id `[2]`. -/
def rcvState : ReceivedMessage :=
  ⟨stateMsgW, [2]⟩

/-- Witness for C4 at a concrete valid chain-state message and the running
state `st0`. -/
theorem handleMessage_chainState_flow_witness :
    (st0.stopFlag = false ∧ validateMsg rcvState = true
      ∧ rcvState.msg.message.IsChainStateMsg = true)
    ∧ ((handleMessage env0 st0 rcvState).2.emitted =
        [⟨rcvState.msg, isNotSameFilter rcvState.connID⟩]
      ∧ ((handleMessage env0 st0 rcvState).2.deliveredTo.isSome = true →
          (msgStoreAdd rkSyncMessageComparator st0.chainStateStore rcvState.msg).1 = true)
      ∧ (∀ cid, (handleMessage env0 st0 rcvState).2.joinedFollower = some cid →
          (msgStoreAdd rkSyncMessageComparator st0.chainStateStore rcvState.msg).1 = true
          ∧ lookupChannelForMsg st0 rcvState = none
          ∧ ∃ cs info, rcvState.msg.message.GetState = some cs
              ∧ cs.GetChainStateInfo env0 = some info
              ∧ st0.selfPKIid ∈ info.properties.members)) :=
  ⟨⟨rfl, by decide, rfl⟩,
    handleMessage_chainState_flow env0 st0 rcvState rfl (by decide) rfl⟩

/-- A message whose `GetMemReq` is populated has membership-request
content. -/
theorem getMemReq_content {m : RKSyncMessage} {r : MembershipRequest}
    (h : m.GetMemReq = some r) : m.content = Content.memReq r := by
  unfold RKSyncMessage.GetMemReq at h
  split at h
  · rename_i r2 heq
    cases h
    exact heq
  · cases h

/-- Claim C5: an inbound membership request is forwarded to the discovery
adapter inbound channel only when its embedded self-information parses
to an alive message whose membership PKI-id equals the connection
handshake PKI-id. -/
theorem handleMessage_memReq_forward_guard (env : Env) (st : ServiceState)
    (m : ReceivedMessage) (mr : MembershipRequest)
    (hreq : m.msg.message.GetMemReq = some mr)
    (hfwd : (handleMessage env st m).2.forwardedToDiscovery = true) :
    ∃ sMsg am, mr.selfInformation.ToRKSyncMessage env = some sMsg
      ∧ sMsg.message.GetAliveMsg = some am
      ∧ am.membership.pkiId = m.connID := by
  have hct := getMemReq_content hreq
  unfold handleMessage at hfwd
  by_cases hstop : st.stopFlag = true
  · rw [if_pos hstop] at hfwd
    simp [noEffects] at hfwd
  rw [if_neg hstop] at hfwd
  by_cases hval : (!validateMsg m) = true
  · rw [if_pos hval] at hfwd
    simp [noEffects] at hfwd
  rw [if_neg hval] at hfwd
  have hcs : ¬(m.msg.message.IsChainStateMsg = true) := by
    simp [RKSyncMessage.IsChainStateMsg, RKSyncMessage.GetState, hct]
  rw [if_neg hcs] at hfwd
  by_cases hcr : m.msg.message.IsChannelRestricted = true
  · rw [if_pos hcr] at hfwd
    cases hlook : lookupChannelForMsg st m <;> rw [hlook] at hfwd <;>
      simp [noEffects] at hfwd
  rw [if_neg hcr] at hfwd
  have hdisc : selectOnlyDiscoveryMessages m = true := by
    simp [selectOnlyDiscoveryMessages, RKSyncMessage.GetMemReq, hct]
  rw [if_pos hdisc] at hfwd
  rw [hreq] at hfwd
  dsimp only at hfwd
  rcases hdec : mr.selfInformation.ToRKSyncMessage env with _ | sMsg
  · rw [hdec] at hfwd
    simp [noEffects] at hfwd
  rw [hdec] at hfwd
  dsimp only at hfwd
  rcases halive : sMsg.message.GetAliveMsg with _ | am
  · rw [halive] at hfwd
    simp [noEffects] at hfwd
  rw [halive] at hfwd
  dsimp only at hfwd
  by_cases hpk : am.membership.pkiId = m.connID
  · exact ⟨sMsg, am, rfl, halive, hpk⟩
  · rw [if_neg hpk] at hfwd
    simp [noEffects] at hfwd

/-- A concrete alive message used as embedded self-information. -/
def aliveInner : RKSyncMessage :=
  ⟨2, [], Tag.EMPTY, Content.aliveMsg ⟨⟨"selfInfo", [9]⟩, ⟨1, 1⟩, []⟩⟩

/-- A concrete environment whose decoder recognizes the payload `[7]` as
the alive self-information message. -/
def env1 : Env :=
  ⟨fun b => if b = [7] then some aliveInner else none,
    fun _ => [], id, fun _ _ => false, fun b => some b⟩

/-- The envelope carrying the encoded self-information. -/
def selfEnvW : Envelope :=
  ⟨[7], []⟩

/-- A concrete membership request embedding the self-information. -/
def mrW : MembershipRequest :=
  ⟨selfEnvW, []⟩

/-- A concrete membership-request message. -/
def memReqMsgW : SignedRKSyncMessage :=
  ⟨⟨3, [], Tag.EMPTY, Content.memReq mrW⟩, ⟨[8], []⟩⟩

/-- The membership request as received from connection PKI-id `[9]`,
matching the embedded self-information membership PKI-id. -/
def rcvMemReq : ReceivedMessage :=
  ⟨memReqMsgW, [9]⟩

/-- Witness for C5 at a concrete forwarded membership request. -/
theorem handleMessage_memReq_forward_guard_witness :
    (rcvMemReq.msg.message.GetMemReq = some mrW
      ∧ (handleMessage env1 st0 rcvMemReq).2.forwardedToDiscovery = true)
    ∧ ∃ sMsg am, mrW.selfInformation.ToRKSyncMessage env1 = some sMsg
        ∧ sMsg.message.GetAliveMsg = some am
        ∧ am.membership.pkiId = rcvMemReq.connID :=
  ⟨⟨rfl, by decide⟩,
    handleMessage_memReq_forward_guard env1 st0 rcvMemReq mrW rfl (by decide)⟩

/-- Claim C8: `SendToPeer` on a membership request to a peer with a known
PKI-id sends a message whose self-information envelope is the disclosure
policy `omitConcealedFields` output, while the request `Known` list
and the message nonce, channel and tag are unchanged. -/
theorem sendToPeer_memReq_rewrite (env : Env) (peer : NetworkMember)
    (msg : SignedRKSyncMessage) (mr : MembershipRequest)
    (selfMsg : SignedRKSyncMessage)
    (h1 : msg.message.GetMemReq = some mr)
    (h2 : peer.pkiId ≠ [])
    (h3 : mr.selfInformation.ToRKSyncMessage env = some selfMsg) :
    ∃ m2, SendToPeer env false peer msg = SendResult.sent m2
      ∧ m2.message.nonce = msg.message.nonce
      ∧ m2.message.channel = msg.message.channel
      ∧ m2.message.tag = msg.message.tag
      ∧ m2.message.GetMemReq = some ⟨omitConcealedFields selfMsg, mr.known⟩ := by
  have hsend : SendToPeer env false peer msg =
      SendResult.sent (noopSign env
        { msg.message with
          content := Content.memReq ⟨omitConcealedFields selfMsg, mr.known⟩ }) := by
    unfold SendToPeer
    rw [if_neg (by simp)]
    rw [h1]
    dsimp only
    rw [if_pos h2]
    rw [h3]
  exact ⟨_, hsend, rfl, rfl, rfl, rfl⟩

/-- A concrete destination peer with a known PKI-id. -/
def peerW : NetworkMember :=
  ⟨"peerW", [4]⟩

/-- The parsed self-information message. -/
def selfMsgW : SignedRKSyncMessage :=
  ⟨aliveInner, selfEnvW⟩

/-- Witness for C8 at the concrete membership request and peer. -/
theorem sendToPeer_memReq_rewrite_witness :
    (memReqMsgW.message.GetMemReq = some mrW
      ∧ peerW.pkiId ≠ []
      ∧ mrW.selfInformation.ToRKSyncMessage env1 = some selfMsgW)
    ∧ ∃ m2, SendToPeer env1 false peerW memReqMsgW = SendResult.sent m2
      ∧ m2.message.nonce = memReqMsgW.message.nonce
      ∧ m2.message.channel = memReqMsgW.message.channel
      ∧ m2.message.tag = memReqMsgW.message.tag
      ∧ m2.message.GetMemReq = some ⟨omitConcealedFields selfMsgW, mrW.known⟩ :=
  ⟨⟨rfl, by decide, by decide⟩,
    sendToPeer_memReq_rewrite env1 peerW memReqMsgW mrW selfMsgW rfl
      (by decide) (by decide)⟩

end Courier
